import Mathlib

/-!
Verification of the VulnerableVault contract (src/src/lib.rs).

The contract stores, per sol_storage, three mappings:
  balances          : mapping(address => mapping(uint256 => uint256))
  total_deposits    : mapping(uint256 => uint256)
  reentrancy_status : mapping(uint256 => uint256)
All inner accesses in the source use the constant key U256::from(0).

Addresses and uint256 cells are modelled as Nat; U256 arithmetic is modelled
as arithmetic modulo 2 ^ 256, which is the wrapping semantics of the `+` and
`-` operators on alloy U256 values in the release builds that are deployed.
A Rust assert failure aborts the call and the Stylus runtime reverts every
storage write of that call frame; accordingly each public operation is a
function returning Except, and a top-level call (`step`) restores the
pre-state on error.

The state also carries a ghost log `transfers` of outbound value transfers:
the source never performs an outbound transfer, so no operation appends to
this log. This makes transfer-related statements of the specification
checkable against the code.
-/

/-- Modulus of the 256-bit unsigned integer domain used by U256 storage. -/
def U256MOD : Nat := 2 ^ 256

/-- Wrapping U256 addition, the semantics of `+` on alloy U256 values. -/
def u256add (x y : Nat) : Nat := (x + y) % U256MOD

/-- Wrapping U256 subtraction, the semantics of `-` on alloy U256 values;
for operands below 2 ^ 256 this is the usual two-complement wrap. -/
def u256sub (x y : Nat) : Nat := (x + (U256MOD - y % U256MOD)) % U256MOD

/-- Abort causes of the contract. The source aborts through Rust asserts;
the assert message "ReentrancyGuard: reentrant call" is `reentrantCall` and
the assert message "Insufficient balance" is `insufficientBalance`. -/
inductive VaultError where
  | reentrantCall
  | insufficientBalance
deriving DecidableEq

/-- Storage of the contract, mirroring the sol_storage declaration of
`VulnerableVault`, plus the ghost transfer log described in the header. -/
structure VulnerableVault where
  balances : Nat → Nat → Nat
  total_deposits : Nat → Nat
  reentrancy_status : Nat → Nat
  transfers : List (Nat × Nat)

/-- Initial state: EVM/Stylus storage is all-zero and nothing was transferred. -/
def initState : VulnerableVault :=
  { balances := fun _ _ => 0
    total_deposits := fun _ => 0
    reentrancy_status := fun _ => 0
    transfers := [] }

/-- Internal reentrancy guard `non_reentrant`: asserts that the status slot is
0 (not entered) and sets it to 1 (entered). -/
def non_reentrant (s : VulnerableVault) : Except VaultError VulnerableVault :=
  if s.reentrancy_status 0 = 0 then
    Except.ok { s with reentrancy_status := Function.update s.reentrancy_status 0 1 }
  else
    Except.error VaultError.reentrantCall

/-- Guarded `deposit`: engages the guard, credits msg_value to the sender
balance and to the total, then resets the guard status to 0. -/
def deposit (s : VulnerableVault) (sender msg_value : Nat) :
    Except VaultError (VulnerableVault × Bool) :=
  match non_reentrant s with
  | Except.error e => Except.error e
  | Except.ok s =>
    let current_balance := s.balances sender 0
    let new_balance := u256add current_balance msg_value
    let bs := Function.update s.balances sender (Function.update (s.balances sender) 0 new_balance)
    let s := { s with balances := bs }
    let current_total := s.total_deposits 0
    let new_total := u256add current_total msg_value
    let s := { s with total_deposits := Function.update s.total_deposits 0 new_total }
    let s := { s with reentrancy_status := Function.update s.reentrancy_status 0 0 }
    Except.ok (s, true)

/-- Guarded `withdraw`: engages the guard, asserts the sender balance covers
the amount, debits the balance and the total, then resets the guard status.
The source performs no outbound value transfer on this path. -/
def withdraw (s : VulnerableVault) (sender amount : Nat) :
    Except VaultError (VulnerableVault × Bool) :=
  match non_reentrant s with
  | Except.error e => Except.error e
  | Except.ok s =>
    let current_balance := s.balances sender 0
    if current_balance < amount then Except.error VaultError.insufficientBalance
    else
      let new_balance := u256sub current_balance amount
      let bs := Function.update s.balances sender (Function.update (s.balances sender) 0 new_balance)
      let s := { s with balances := bs }
      let current_total := s.total_deposits 0
      let new_total := u256sub current_total amount
      let s := { s with total_deposits := Function.update s.total_deposits 0 new_total }
      let s := { s with reentrancy_status := Function.update s.reentrancy_status 0 0 }
      Except.ok (s, true)

/-- Unguarded withdraw, the source function `unsafe_withdraw`: no guard is
engaged and the guard status is never touched; the balance is checked and
debited, and the total is debited. The source performs no outbound value
transfer on this path either. -/
def unguarded_withdraw (s : VulnerableVault) (sender amount : Nat) :
    Except VaultError (VulnerableVault × Bool) :=
  let current_balance := s.balances sender 0
  if current_balance < amount then Except.error VaultError.insufficientBalance
  else
    let new_balance := u256sub current_balance amount
    let bs := Function.update s.balances sender (Function.update (s.balances sender) 0 new_balance)
    let s := { s with balances := bs }
    let current_total := s.total_deposits 0
    let new_total := u256sub current_total amount
    let s := { s with total_deposits := Function.update s.total_deposits 0 new_total }
    Except.ok (s, true)

/-- View `balance_of`. -/
def balance_of (s : VulnerableVault) (user : Nat) : Nat := s.balances user 0

/-- View `total_deposits`. -/
def totalDeposits (s : VulnerableVault) : Nat := s.total_deposits 0

/-- View `is_entered`: whether the guard status slot equals 1. -/
def is_entered (s : VulnerableVault) : Bool := s.reentrancy_status 0 == 1

/-- A top-level call into the contract, with its caller and arguments. -/
inductive Op where
  | deposit (sender msg_value : Nat)
  | withdraw (sender amount : Nat)
  | unguarded_withdraw (sender amount : Nat)

/-- Caller of an operation (msg_sender of the call). -/
def Op.caller : Op → Nat
  | Op.deposit c _ => c
  | Op.withdraw c _ => c
  | Op.unguarded_withdraw c _ => c

/-- Raw execution of one call: the returned state is committed only if the
call does not abort. -/
def callRaw (op : Op) (s : VulnerableVault) : Except VaultError (VulnerableVault × Bool) :=
  match op with
  | Op.deposit c v => deposit s c v
  | Op.withdraw c a => withdraw s c a
  | Op.unguarded_withdraw c a => unguarded_withdraw s c a

/-- Committed effect of a top-level call: on abort the Stylus runtime reverts
every storage write of the frame, so the pre-state is kept. -/
def step (s : VulnerableVault) (op : Op) : VulnerableVault :=
  match callRaw op s with
  | Except.ok (s2, _) => s2
  | Except.error _ => s

/-- Whether a top-level call succeeds. -/
def opOk (op : Op) (s : VulnerableVault) : Bool :=
  match callRaw op s with
  | Except.ok _ => true
  | Except.error _ => false

/-- Execution of a sequence of top-level calls. -/
def run (s : VulnerableVault) (ops : List Op) : VulnerableVault :=
  ops.foldl step s

/-- Accounts addressed by a sequence of calls; all other balances stay 0. -/
def acctsOf (ops : List Op) : Finset Nat := (ops.map Op.caller).toFinset

/-- Sum of the balances of a list of accounts. -/
def sumBalances (s : VulnerableVault) (accts : List Nat) : Nat :=
  (accts.map (fun a => s.balances a 0)).sum

/-- A state whose guard status is Entered, as observed by a nested call made
while a guarded operation is in flight. -/
def sEntered : VulnerableVault :=
  { initState with reentrancy_status := Function.update initState.reentrancy_status 0 1 }

/-- A quiescent example state: account 0 holds 10, the total is 10, the guard
is disengaged. -/
def exState : VulnerableVault :=
  { balances := fun a _ => if a = 0 then 10 else 0
    total_deposits := fun k => if k = 0 then 10 else 0
    reentrancy_status := fun _ => 0
    transfers := [] }

/-- The state after account 0 deposits 100 into the fresh vault. -/
def s100 : VulnerableVault := step initState (Op.deposit 0 100)

/-! Shape lemmas: the exact result of each public operation, by case. -/

/-- Result state of a successful deposit. -/
def depositResult (s : VulnerableVault) (sender msg_value : Nat) : VulnerableVault :=
  { s with
    balances := Function.update s.balances sender
      (Function.update (s.balances sender) 0 (u256add (s.balances sender 0) msg_value))
    total_deposits := Function.update s.total_deposits 0 (u256add (s.total_deposits 0) msg_value)
    reentrancy_status := Function.update (Function.update s.reentrancy_status 0 1) 0 0 }

/-- Result state of a successful guarded withdraw. -/
def withdrawResult (s : VulnerableVault) (sender amount : Nat) : VulnerableVault :=
  { s with
    balances := Function.update s.balances sender
      (Function.update (s.balances sender) 0 (u256sub (s.balances sender 0) amount))
    total_deposits := Function.update s.total_deposits 0 (u256sub (s.total_deposits 0) amount)
    reentrancy_status := Function.update (Function.update s.reentrancy_status 0 1) 0 0 }

/-- Result state of a successful unguarded withdraw: the guard status is not
touched at all. -/
def unguardedWithdrawResult (s : VulnerableVault) (sender amount : Nat) : VulnerableVault :=
  { s with
    balances := Function.update s.balances sender
      (Function.update (s.balances sender) 0 (u256sub (s.balances sender 0) amount))
    total_deposits := Function.update s.total_deposits 0 (u256sub (s.total_deposits 0) amount) }

theorem deposit_ok {s : VulnerableVault} (c v : Nat) (h0 : s.reentrancy_status 0 = 0) :
    deposit s c v = Except.ok (depositResult s c v, true) := by
  simp [deposit, non_reentrant, h0, depositResult, Function.update_noteq]

theorem deposit_reentrant {s : VulnerableVault} (c v : Nat)
    (h0 : s.reentrancy_status 0 ≠ 0) :
    deposit s c v = Except.error VaultError.reentrantCall := by
  simp [deposit, non_reentrant, h0]

theorem withdraw_ok {s : VulnerableVault} (c a : Nat) (h0 : s.reentrancy_status 0 = 0)
    (hb : ¬ s.balances c 0 < a) :
    withdraw s c a = Except.ok (withdrawResult s c a, true) := by
  simp [withdraw, non_reentrant, h0, hb, withdrawResult, Function.update_noteq]

theorem withdraw_reentrant {s : VulnerableVault} (c a : Nat)
    (h0 : s.reentrancy_status 0 ≠ 0) :
    withdraw s c a = Except.error VaultError.reentrantCall := by
  simp [withdraw, non_reentrant, h0]

theorem withdraw_insufficient {s : VulnerableVault} (c a : Nat)
    (h0 : s.reentrancy_status 0 = 0) (hb : s.balances c 0 < a) :
    withdraw s c a = Except.error VaultError.insufficientBalance := by
  simp [withdraw, non_reentrant, h0, hb]

theorem unguarded_withdraw_ok {s : VulnerableVault} (c a : Nat)
    (hb : ¬ s.balances c 0 < a) :
    unguarded_withdraw s c a = Except.ok (unguardedWithdrawResult s c a, true) := by
  simp [unguarded_withdraw, hb, unguardedWithdrawResult]

theorem unguarded_withdraw_insufficient {s : VulnerableVault} (c a : Nat)
    (hb : s.balances c 0 < a) :
    unguarded_withdraw s c a = Except.error VaultError.insufficientBalance := by
  simp [unguarded_withdraw, hb]

theorem step_of_ok {s s2 : VulnerableVault} {op : Op} {b : Bool}
    (h : callRaw op s = Except.ok (s2, b)) : step s op = s2 := by
  simp [step, h]

theorem step_of_error {s : VulnerableVault} {op : Op} {e : VaultError}
    (h : callRaw op s = Except.error e) : step s op = s := by
  simp [step, h]

/-! Guard-status and frame helpers. -/

/-- One committed call never leaves the guard engaged: from a disengaged
state, the status slot is 0 again after the call, successful or not. -/
theorem step_status_zero {s : VulnerableVault} (op : Op)
    (h : s.reentrancy_status 0 = 0) : (step s op).reentrancy_status 0 = 0 := by
  cases op with
  | deposit c v =>
    rw [step_of_ok (show callRaw (Op.deposit c v) s = _ from deposit_ok c v h)]
    simp [depositResult]
  | withdraw c a =>
    by_cases hb : s.balances c 0 < a
    · rw [step_of_error (show callRaw (Op.withdraw c a) s = _ from withdraw_insufficient c a h hb)]
      exact h
    · rw [step_of_ok (show callRaw (Op.withdraw c a) s = _ from withdraw_ok c a h hb)]
      simp [withdrawResult]
  | unguarded_withdraw c a =>
    by_cases hb : s.balances c 0 < a
    · rw [step_of_error
        (show callRaw (Op.unguarded_withdraw c a) s = _ from unguarded_withdraw_insufficient c a hb)]
      exact h
    · rw [step_of_ok (show callRaw (Op.unguarded_withdraw c a) s = _ from unguarded_withdraw_ok c a hb)]
      simp [unguardedWithdrawResult]
      exact h

/-- Running a sequence of calls from a disengaged state keeps the guard
disengaged. -/
theorem run_status_zero (ops : List Op) :
    ∀ s : VulnerableVault, s.reentrancy_status 0 = 0 →
      (run s ops).reentrancy_status 0 = 0 := by
  induction ops with
  | nil => intro s h; exact h
  | cons op ops ih =>
    intro s h
    exact ih (step s op) (step_status_zero op h)

/-- A committed call never changes the balances of an account other than the
caller of the call (success or failure). -/
theorem step_balances_frame {s : VulnerableVault} (op : Op) (a : Nat)
    (h : a ≠ op.caller) : (step s op).balances a = s.balances a := by
  cases op with
  | deposit c v =>
    by_cases h0 : s.reentrancy_status 0 = 0
    · rw [step_of_ok (show callRaw (Op.deposit c v) s = _ from deposit_ok c v h0)]
      simp only [depositResult]
      exact Function.update_noteq h _ _
    · rw [step_of_error (show callRaw (Op.deposit c v) s = _ from deposit_reentrant c v h0)]
  | withdraw c a2 =>
    by_cases h0 : s.reentrancy_status 0 = 0
    · by_cases hb : s.balances c 0 < a2
      · rw [step_of_error (show callRaw (Op.withdraw c a2) s = _ from withdraw_insufficient c a2 h0 hb)]
      · rw [step_of_ok (show callRaw (Op.withdraw c a2) s = _ from withdraw_ok c a2 h0 hb)]
        simp only [withdrawResult]
        exact Function.update_noteq h _ _
    · rw [step_of_error (show callRaw (Op.withdraw c a2) s = _ from withdraw_reentrant c a2 h0)]
  | unguarded_withdraw c a2 =>
    by_cases hb : s.balances c 0 < a2
    · rw [step_of_error
        (show callRaw (Op.unguarded_withdraw c a2) s = _ from unguarded_withdraw_insufficient c a2 hb)]
    · rw [step_of_ok (show callRaw (Op.unguarded_withdraw c a2) s = _ from unguarded_withdraw_ok c a2 hb)]
      simp only [unguardedWithdrawResult]
      exact Function.update_noteq h _ _

/-- A sequence of calls leaves the balances of a non-caller untouched. -/
theorem run_balances_frame (ops : List Op) :
    ∀ (s : VulnerableVault) (a : Nat), (∀ op ∈ ops, a ≠ op.caller) →
      (run s ops).balances a = s.balances a := by
  induction ops with
  | nil => intro s a _; rfl
  | cons op ops ih =>
    intro s a h
    have h1 : (run (step s op) ops).balances a = (step s op).balances a :=
      ih (step s op) a (fun o ho => h o (List.mem_cons_of_mem _ ho))
    have h2 : (step s op).balances a = s.balances a :=
      step_balances_frame op a (h op (List.mem_cons_self _ _))
    exact h1.trans h2

/-- Accounts that never call have zero balance in any state reached from the
initial state. -/
theorem run_balances_zero (ops : List Op) (a : Nat)
    (h : ∀ op ∈ ops, a ≠ op.caller) : (run initState ops).balances a 0 = 0 := by
  rw [run_balances_frame ops initState a h]
  rfl

/-! Modular conservation helpers. -/

theorem u256add_modEq (x y : Nat) : u256add x y ≡ x + y [MOD U256MOD] :=
  Nat.mod_modEq (x + y) U256MOD

theorem u256sub_modEq (x y : Nat) :
    u256sub x y ≡ x + (U256MOD - y % U256MOD) [MOD U256MOD] :=
  Nat.mod_modEq _ U256MOD

/-- Rewriting the sum over `insert c A` after storing `w` in the slot-0 cell
of account `c`. -/
theorem sum_insert_update (A : Finset Nat) (c w : Nat) (f : Nat → Nat → Nat) :
    (∑ a ∈ insert c A, Function.update f c (Function.update (f c) 0 w) a 0) + f c 0
      = (∑ a ∈ insert c A, f a 0) + w := by
  have hc : c ∈ insert c A := Finset.mem_insert_self c A
  have e1 : (Function.update f c (Function.update (f c) 0 w) c 0) +
      (∑ a ∈ (insert c A).erase c, Function.update f c (Function.update (f c) 0 w) a 0)
      = ∑ a ∈ insert c A, Function.update f c (Function.update (f c) 0 w) a 0 :=
    Finset.add_sum_erase _ (fun a => Function.update f c (Function.update (f c) 0 w) a 0) hc
  have e2 : f c 0 + (∑ a ∈ (insert c A).erase c, f a 0) = ∑ a ∈ insert c A, f a 0 :=
    Finset.add_sum_erase _ (fun a => f a 0) hc
  have h1 : Function.update f c (Function.update (f c) 0 w) c 0 = w := by
    rw [Function.update_same, Function.update_same]
  have h2 : (∑ a ∈ (insert c A).erase c, Function.update f c (Function.update (f c) 0 w) a 0)
      = ∑ a ∈ (insert c A).erase c, f a 0 := by
    apply Finset.sum_congr rfl
    intro a ha
    rw [Function.update_noteq (Finset.ne_of_mem_erase ha)]
  omega

/-- One mutation step of the conservation argument: if the total was congruent
to the sum of balances over `A`, the caller account holds 0 whenever it is
outside `A`, the freshly stored balance is congruent to the old balance plus
`D`, and the new total is congruent to the old total plus `D`, then the new
total is congruent to the new sum over `insert c A`. -/
theorem modEq_total_sum_step {n : Nat} (A : Finset Nat) (c : Nat) (f : Nat → Nat → Nat)
    (t t2 w D : Nat)
    (hIH : t ≡ ∑ a ∈ A, f a 0 [MOD n])
    (hzero : c ∉ A → f c 0 = 0)
    (hw : w ≡ f c 0 + D [MOD n])
    (ht : t2 ≡ t + D [MOD n]) :
    t2 ≡ ∑ a ∈ insert c A, Function.update f c (Function.update (f c) 0 w) a 0 [MOD n] := by
  have hBA : ∑ a ∈ insert c A, f a 0 = ∑ a ∈ A, f a 0 := by
    by_cases hcA : c ∈ A
    · rw [Finset.insert_eq_self.mpr hcA]
    · rw [Finset.sum_insert hcA, hzero hcA, zero_add]
  have hkey := sum_insert_update A c w f
  have h1 : (∑ a ∈ insert c A, Function.update f c (Function.update (f c) 0 w) a 0) + f c 0
      ≡ ((∑ a ∈ insert c A, f a 0) + D) + f c 0 [MOD n] := by
    rw [hkey]
    calc (∑ a ∈ insert c A, f a 0) + w
        ≡ (∑ a ∈ insert c A, f a 0) + (f c 0 + D) [MOD n] :=
          Nat.ModEq.add_left _ hw
      _ = ((∑ a ∈ insert c A, f a 0) + D) + f c 0 := by ring
  have h2 : (∑ a ∈ insert c A, Function.update f c (Function.update (f c) 0 w) a 0)
      ≡ (∑ a ∈ insert c A, f a 0) + D [MOD n] :=
    Nat.ModEq.add_right_cancel' _ h1
  calc t2 ≡ t + D [MOD n] := ht
    _ ≡ (∑ a ∈ A, f a 0) + D [MOD n] := Nat.ModEq.add_right D hIH
    _ = (∑ a ∈ insert c A, f a 0) + D := by rw [hBA]
    _ ≡ ∑ a ∈ insert c A, Function.update f c (Function.update (f c) 0 w) a 0 [MOD n] :=
      h2.symm

/-- Unchanged-state step of the conservation argument. -/
theorem modEq_total_sum_keep {n : Nat} (A : Finset Nat) (c : Nat) (f : Nat → Nat → Nat)
    (t : Nat)
    (hIH : t ≡ ∑ a ∈ A, f a 0 [MOD n])
    (hzero : c ∉ A → f c 0 = 0) :
    t ≡ ∑ a ∈ insert c A, f a 0 [MOD n] := by
  have hBA : ∑ a ∈ insert c A, f a 0 = ∑ a ∈ A, f a 0 := by
    by_cases hcA : c ∈ A
    · rw [Finset.insert_eq_self.mpr hcA]
    · rw [Finset.sum_insert hcA, hzero hcA, zero_add]
  rw [hBA]
  exact hIH

/-! Trace decomposition lemmas. -/

theorem run_append (s : VulnerableVault) (ops : List Op) (op : Op) :
    run s (ops ++ [op]) = step (run s ops) op := by
  simp [run, List.foldl_append]

theorem acctsOf_append (ops : List Op) (op : Op) :
    acctsOf (ops ++ [op]) = insert op.caller (acctsOf ops) := by
  simp [acctsOf, List.toFinset_append]
  rw [Finset.union_comm]
  rfl

/-- The caller of an operation not listed among the callers of a trace is no
caller of any operation of the trace. -/
theorem not_mem_acctsOf (ops : List Op) (c : Nat) (h : c ∉ acctsOf ops) :
    ∀ op ∈ ops, c ≠ op.caller := by
  intro op hop heq
  exact h (by
    rw [acctsOf, List.mem_toFinset, List.mem_map]
    exact ⟨op, hop, heq.symm⟩)

/-- Claim C2, amended form: after every complete sequence of top-level calls
from the initial state, the aggregate total is congruent modulo 2 ^ 256 to
the sum of all per-account balances (the sum over every account a trace ever
addressed; untouched accounts hold 0). Exact equality can fail because U256
addition wraps, see the counterexample below. -/
theorem conservation_mod_u256 (ops : List Op) :
    (run initState ops).total_deposits 0
      ≡ ∑ a ∈ acctsOf ops, (run initState ops).balances a 0 [MOD U256MOD] := by
  induction ops using List.reverseRecOn with
  | nil => rfl
  | append_singleton l op ih =>
    have h0 : (run initState l).reentrancy_status 0 = 0 := run_status_zero l initState rfl
    have hz : op.caller ∉ acctsOf l → (run initState l).balances op.caller 0 = 0 :=
      fun hc => run_balances_zero l op.caller (not_mem_acctsOf l op.caller hc)
    rw [run_append, acctsOf_append]
    cases op with
    | deposit c v =>
      rw [step_of_ok (show callRaw (Op.deposit c v) (run initState l) = _ from deposit_ok c v h0)]
      simp only [depositResult, Function.update_same]
      exact modEq_total_sum_step (acctsOf l) c (run initState l).balances
        ((run initState l).total_deposits 0) _ _ v ih hz
        (u256add_modEq _ _) (u256add_modEq _ _)
    | withdraw c a =>
      by_cases hb : (run initState l).balances c 0 < a
      · rw [step_of_error
          (show callRaw (Op.withdraw c a) (run initState l) = _ from withdraw_insufficient c a h0 hb)]
        exact modEq_total_sum_keep (acctsOf l) c (run initState l).balances _ ih hz
      · rw [step_of_ok (show callRaw (Op.withdraw c a) (run initState l) = _ from withdraw_ok c a h0 hb)]
        simp only [withdrawResult, Function.update_same]
        exact modEq_total_sum_step (acctsOf l) c (run initState l).balances
          ((run initState l).total_deposits 0) _ _ (U256MOD - a % U256MOD) ih hz
          (u256sub_modEq _ _) (u256sub_modEq _ _)
    | unguarded_withdraw c a =>
      by_cases hb : (run initState l).balances c 0 < a
      · rw [step_of_error
          (show callRaw (Op.unguarded_withdraw c a) (run initState l) = _ from
            unguarded_withdraw_insufficient c a hb)]
        exact modEq_total_sum_keep (acctsOf l) c (run initState l).balances _ ih hz
      · rw [step_of_ok
          (show callRaw (Op.unguarded_withdraw c a) (run initState l) = _ from
            unguarded_withdraw_ok c a hb)]
        simp only [unguardedWithdrawResult, Function.update_same]
        exact modEq_total_sum_step (acctsOf l) c (run initState l).balances
          ((run initState l).total_deposits 0) _ _ (U256MOD - a % U256MOD) ih hz
          (u256sub_modEq _ _) (u256sub_modEq _ _)

/-! Claim theorems. -/

/-- Claim C1: every call to a guarded operation (deposit or withdraw) made
while the guard status is Entered aborts with the reentrant-call error and
commits no mutation (the whole state, hence the guard status, every balance
and the total, is unchanged); from the NotEntered status, enter() sets the
status to Entered and succeeds. -/
theorem guard_exclusivity (s : VulnerableVault) (c v a : Nat) :
    (s.reentrancy_status 0 = 1 →
      deposit s c v = Except.error VaultError.reentrantCall ∧
      withdraw s c a = Except.error VaultError.reentrantCall ∧
      step s (Op.deposit c v) = s ∧
      step s (Op.withdraw c a) = s) ∧
    (s.reentrancy_status 0 = 0 →
      non_reentrant s =
        Except.ok { s with reentrancy_status := Function.update s.reentrancy_status 0 1 }) := by
  constructor
  · intro h1
    have hne : s.reentrancy_status 0 ≠ 0 := by rw [h1]; exact one_ne_zero
    refine ⟨deposit_reentrant c v hne, withdraw_reentrant c a hne, ?_, ?_⟩
    · exact step_of_error (show callRaw (Op.deposit c v) s = _ from deposit_reentrant c v hne)
    · exact step_of_error (show callRaw (Op.withdraw c a) s = _ from withdraw_reentrant c a hne)
  · intro h0
    simp [non_reentrant, h0]

/-- Witness for claim C1 at concrete inputs. -/
theorem guard_exclusivity_witness :
    deposit sEntered 0 5 = Except.error VaultError.reentrantCall ∧
    step sEntered (Op.deposit 0 5) = sEntered ∧
    non_reentrant initState =
      Except.ok { initState with
        reentrancy_status := Function.update initState.reentrancy_status 0 1 } :=
  ⟨((guard_exclusivity sEntered 0 5 5).1 (by decide)).1,
   ((guard_exclusivity sEntered 0 5 5).1 (by decide)).2.2.1,
   (guard_exclusivity initState 0 5 5).2 rfl⟩

/-- Claim C2, counterexample to the exact conservation statement: two
successful deposits of 2 ^ 255 leave the stored aggregate total at 0 while
the balances of the two depositors sum to 2 ^ 256, because the U256 addition
in deposit wraps. -/
theorem conservation_exact_counterexample :
    opOk (Op.deposit 0 (2 ^ 255)) initState = true ∧
    opOk (Op.deposit 1 (2 ^ 255)) (step initState (Op.deposit 0 (2 ^ 255))) = true ∧
    (run initState [Op.deposit 0 (2 ^ 255), Op.deposit 1 (2 ^ 255)]).balances 0 0 = 2 ^ 255 ∧
    (run initState [Op.deposit 0 (2 ^ 255), Op.deposit 1 (2 ^ 255)]).balances 1 0 = 2 ^ 255 ∧
    (run initState [Op.deposit 0 (2 ^ 255), Op.deposit 1 (2 ^ 255)]).total_deposits 0 = 0 ∧
    sumBalances (run initState [Op.deposit 0 (2 ^ 255), Op.deposit 1 (2 ^ 255)]) [0, 1]
      = 2 ^ 256 := by
  decide

/-- Claim C7: the guard reads as not entered in the initial state and again
after every sequence of top-level calls, each committed call having succeeded
or aborted; the guard never stays Entered once a top-level call finished. -/
theorem guard_never_leaks :
    is_entered initState = false ∧
    ∀ ops : List Op, is_entered (run initState ops) = false := by
  refine ⟨rfl, fun ops => ?_⟩
  simp [is_entered, run_status_zero ops initState rfl]

/-- Claim C5: in any state reachable from the initial state by top-level
calls, a withdraw (guarded or unguarded) of more than the caller balance
aborts with the insufficient-balance error and commits no mutation. -/
theorem insufficient_balance_atomic (ops : List Op) (c amt : Nat)
    (h : (run initState ops).balances c 0 < amt) :
    withdraw (run initState ops) c amt = Except.error VaultError.insufficientBalance ∧
    unguarded_withdraw (run initState ops) c amt = Except.error VaultError.insufficientBalance ∧
    step (run initState ops) (Op.withdraw c amt) = run initState ops ∧
    step (run initState ops) (Op.unguarded_withdraw c amt) = run initState ops := by
  have h0 := run_status_zero ops initState rfl
  refine ⟨withdraw_insufficient c amt h0 h, unguarded_withdraw_insufficient c amt h, ?_, ?_⟩
  · exact step_of_error (show callRaw (Op.withdraw c amt) _ = _ from withdraw_insufficient c amt h0 h)
  · exact step_of_error
      (show callRaw (Op.unguarded_withdraw c amt) _ = _ from unguarded_withdraw_insufficient c amt h)

/-- Witness for claim C5: withdrawing 1 from the empty vault. -/
theorem insufficient_balance_atomic_witness :
    withdraw (run initState []) 0 1 = Except.error VaultError.insufficientBalance ∧
    unguarded_withdraw (run initState []) 0 1 = Except.error VaultError.insufficientBalance ∧
    step (run initState []) (Op.withdraw 0 1) = run initState [] ∧
    step (run initState []) (Op.unguarded_withdraw 0 1) = run initState [] :=
  insufficient_balance_atomic [] 0 1 (by decide)

/-- Claim C9: from any state in which both calls succeed (guard disengaged,
balance covering the amount), the guarded withdraw and the unguarded withdraw
of the same amount by the same caller commit exactly the same balances and
the same aggregate total; they differ only in the guard check and in the
reset of the guard status, which the unguarded path never touches. -/
theorem guarded_unguarded_same_ledger (s : VulnerableVault) (c amt : Nat)
    (h0 : s.reentrancy_status 0 = 0) (hb : amt ≤ s.balances c 0) :
    opOk (Op.withdraw c amt) s = true ∧
    opOk (Op.unguarded_withdraw c amt) s = true ∧
    (step s (Op.withdraw c amt)).balances = (step s (Op.unguarded_withdraw c amt)).balances ∧
    (step s (Op.withdraw c amt)).total_deposits
      = (step s (Op.unguarded_withdraw c amt)).total_deposits ∧
    (step s (Op.withdraw c amt)).reentrancy_status 0 = 0 ∧
    (step s (Op.unguarded_withdraw c amt)).reentrancy_status = s.reentrancy_status := by
  have hb2 : ¬ s.balances c 0 < amt := not_lt.mpr hb
  have hw := withdraw_ok c amt h0 hb2
  have hu := unguarded_withdraw_ok c amt hb2
  have sw : step s (Op.withdraw c amt) = withdrawResult s c amt :=
    step_of_ok (show callRaw (Op.withdraw c amt) s = _ from hw)
  have su : step s (Op.unguarded_withdraw c amt) = unguardedWithdrawResult s c amt :=
    step_of_ok (show callRaw (Op.unguarded_withdraw c amt) s = _ from hu)
  refine ⟨?_, ?_, ?_, ?_, ?_, ?_⟩
  · simp [opOk, callRaw, hw]
  · simp [opOk, callRaw, hu]
  · rw [sw, su]; rfl
  · rw [sw, su]; rfl
  · rw [sw]; simp [withdrawResult]
  · rw [su]; rfl

/-- Witness for claim C9: withdrawing 3 of 10 from account 0 of the example
state along both paths. -/
theorem guarded_unguarded_same_ledger_witness :
    opOk (Op.withdraw 0 3) exState = true ∧
    opOk (Op.unguarded_withdraw 0 3) exState = true ∧
    (step exState (Op.withdraw 0 3)).balances
      = (step exState (Op.unguarded_withdraw 0 3)).balances ∧
    (step exState (Op.withdraw 0 3)).total_deposits
      = (step exState (Op.unguarded_withdraw 0 3)).total_deposits ∧
    (step exState (Op.withdraw 0 3)).reentrancy_status 0 = 0 ∧
    (step exState (Op.unguarded_withdraw 0 3)).reentrancy_status
      = exState.reentrancy_status :=
  guarded_unguarded_same_ledger exState 0 3 rfl (by decide)

/-- Claim C10: no operation, successful or failed, changes any balance cell of
an account other than the caller of the call. -/
theorem frame_other_accounts (s : VulnerableVault) (op : Op) (a : Nat)
    (h : a ≠ op.caller) :
    (step s op).balances a = s.balances a :=
  step_balances_frame op a h

/-- Witness for claim C10: a deposit by account 0 leaves account 1 untouched. -/
theorem frame_other_accounts_witness :
    (step exState (Op.deposit 0 5)).balances 1 = exState.balances 1 :=
  frame_other_accounts exState (Op.deposit 0 5) 1 (by decide)

/-- Claim C3 evaluated at the failing input: withdrawing 40 of a balance of
100 along the guarded path succeeds, commits the debit of the balance and of
the total and releases the guard, but issues no outbound value transfer at
all (the transfer log is empty before and after), where the claim requires a
transfer of the amount between the debit and the guard release. -/
theorem withdraw_performs_no_transfer :
    opOk (Op.withdraw 0 40) s100 = true ∧
    (step s100 (Op.withdraw 0 40)).balances 0 0 = 60 ∧
    (step s100 (Op.withdraw 0 40)).total_deposits 0 = 60 ∧
    (step s100 (Op.withdraw 0 40)).reentrancy_status 0 = 0 ∧
    s100.transfers = [] ∧
    (step s100 (Op.withdraw 0 40)).transfers = [] := by
  decide

/-- Claim C4 evaluated at the failing input: unsafe_withdraw of 40 of a
balance of 100 succeeds without ever touching the guard status and commits
the debit immediately after the balance check, issuing no outbound value
transfer at all, where the claim requires the transfer to happen before the
debit, leaving a window with the stale balance on record. -/
theorem unguarded_withdraw_performs_no_transfer :
    opOk (Op.unguarded_withdraw 0 40) s100 = true ∧
    (step s100 (Op.unguarded_withdraw 0 40)).balances 0 0 = 60 ∧
    (step s100 (Op.unguarded_withdraw 0 40)).total_deposits 0 = 60 ∧
    (step s100 (Op.unguarded_withdraw 0 40)).reentrancy_status 0
      = s100.reentrancy_status 0 ∧
    is_entered (step s100 (Op.unguarded_withdraw 0 40)) = false ∧
    (step s100 (Op.unguarded_withdraw 0 40)).transfers = [] := by
  decide

/-- Claim C6 evaluated at the failing input: a deposit of 2 ^ 256 - 1 followed
by a deposit of 1 by the same account both succeed, and the balance and the
total wrap to 0 instead of the second deposit aborting with an arithmetic
overflow error; no such error exists in the code. -/
theorem deposit_overflow_wraps :
    opOk (Op.deposit 0 (2 ^ 256 - 1)) initState = true ∧
    opOk (Op.deposit 0 1) (step initState (Op.deposit 0 (2 ^ 256 - 1))) = true ∧
    (run initState [Op.deposit 0 (2 ^ 256 - 1), Op.deposit 0 1]).balances 0 0 = 0 ∧
    (run initState [Op.deposit 0 (2 ^ 256 - 1), Op.deposit 0 1]).total_deposits 0 = 0 := by
  decide

/-- Claim C8 evaluated: deposit 100 by account 0 gives balance 100 and total
100; the guarded withdraw of 40 succeeds and gives balance 60 and total 60,
but with zero outbound transfers issued instead of exactly one transfer of
40; the guarded withdraw of 1000 then fails and changes nothing. -/
theorem scenario_deposit_withdraw_eval :
    (run initState [Op.deposit 0 100]).balances 0 0 = 100 ∧
    (run initState [Op.deposit 0 100]).total_deposits 0 = 100 ∧
    opOk (Op.withdraw 0 40) (run initState [Op.deposit 0 100]) = true ∧
    (run initState [Op.deposit 0 100, Op.withdraw 0 40]).balances 0 0 = 60 ∧
    (run initState [Op.deposit 0 100, Op.withdraw 0 40]).total_deposits 0 = 60 ∧
    (run initState [Op.deposit 0 100, Op.withdraw 0 40]).transfers = [] ∧
    opOk (Op.withdraw 0 1000) (run initState [Op.deposit 0 100, Op.withdraw 0 40]) = false ∧
    (run initState [Op.deposit 0 100, Op.withdraw 0 40, Op.withdraw 0 1000]).balances 0 0 = 60 ∧
    (run initState [Op.deposit 0 100, Op.withdraw 0 40, Op.withdraw 0 1000]).total_deposits 0
      = 60 := by
  decide
